import Mathlib

/-!
Verification of the Bayesian normal-parameter estimator in
`src/homework2/problem1_bayesian_estimation.py` (class `BayesianNormalEstimator`).

The numeric state and the three operations `update_posterior`, `sample_posterior`
and `posterior_predictive` are embedded over the real numbers.  Randomness in
`sample_posterior` is made explicit: each numpy sampling call consumes an
abstract stream of draws, and numpy's `ValueError` on a negative `size`
argument is modelled as `none`.
-/

namespace HomeworkAI

/-- Mean of a list of reals, as `np.mean(data)` computes it (sum divided by
length; the empty case, which numpy turns into NaN, is never consumed on the
paths verified below). -/
noncomputable def sampleMean (xs : List ℝ) : ℝ := xs.sum / xs.length

/-- Sum of squared deviations from the sample mean, `np.sum((data - sample_mean) ** 2)`. -/
noncomputable def sumSqDev (xs : List ℝ) : ℝ :=
  (xs.map (fun x => (x - sampleMean xs) ^ 2)).sum

/-- `np.var(data, ddof=1) if n > 1 else 0`: the Bessel-corrected sample
variance for `n > 1`, and `0` otherwise, exactly as line 53 of the source. -/
noncomputable def sampleVar (xs : List ℝ) : ℝ :=
  if 1 < xs.length then sumSqDev xs / ((xs.length : ℝ) - 1) else 0

/-- The mutable state of a `BayesianNormalEstimator` instance: the four prior
hyperparameters, the four posterior fields, and the recorded data. -/
structure BayesianNormalEstimator where
  prior_mu : ℝ
  prior_sigma : ℝ
  prior_alpha : ℝ
  prior_beta : ℝ
  posterior_mu : ℝ
  posterior_sigma : ℝ
  posterior_alpha : ℝ
  posterior_beta : ℝ
  data : List ℝ

/-- Constructor semantics (`__init__`): posterior fields start as copies of the
priors and the recorded data starts empty. -/
def initEstimator (prior_mu prior_sigma prior_alpha prior_beta : ℝ) :
    BayesianNormalEstimator :=
  { prior_mu := prior_mu
    prior_sigma := prior_sigma
    prior_alpha := prior_alpha
    prior_beta := prior_beta
    posterior_mu := prior_mu
    posterior_sigma := prior_sigma
    posterior_alpha := prior_alpha
    posterior_beta := prior_beta
    data := [] }

/-- `update_posterior(self, data)`, lines 48-69 of the source, as a state
transformer: it stores the data, and recomputes the four posterior fields from
the prior fields and the sample statistics. -/
noncomputable def updatePosterior (s : BayesianNormalEstimator) (data : List ℝ) :
    BayesianNormalEstimator :=
  let n : ℝ := data.length
  let sample_mean := sampleMean data
  let sample_var := sampleVar data
  let prior_precision := 1 / s.prior_sigma ^ 2
  let posterior_precision :=
    if 0 < sample_var then prior_precision + n / sample_var else prior_precision
  { s with
    data := data
    posterior_sigma := 1 / Real.sqrt posterior_precision
    posterior_mu :=
      if 0 < sample_var then
        (prior_precision * s.prior_mu + n * sample_mean / sample_var) / posterior_precision
      else s.prior_mu
    posterior_alpha := s.prior_alpha + n / 2
    posterior_beta :=
      if 1 < data.length then
        s.prior_beta + sumSqDev data / 2 +
          (prior_precision * n * (sample_mean - s.prior_mu) ^ 2) / (2 * posterior_precision)
      else s.prior_beta }

/-- Model of one numpy legacy sampling call with a `size` argument
(`np.random.gamma(shape, scale, size)` / `np.random.normal(loc, scale, size)`):
the abstract stream `draws` supplies the successive sampled values, so the call
returns an array of `size` draws when `size` is non-negative; a negative
`size` makes numpy raise `ValueError: negative dimensions are not allowed`,
modelled as `none`. -/
def npRandomArray (draws : ℕ → ℝ) (size : ℤ) : Option (List ℝ) :=
  if size < 0 then none else some ((List.range size.toNat).map draws)

/-- `sample_posterior(self, n_samples)`, lines 71-80 of the source: draw
`n_samples` precision values (gamma), derive `sigma_samples = 1/sqrt(precision)`,
draw `n_samples` mean values (normal), and return `(mu_samples, sigma_samples)`.
The method writes nothing to `self`, so the returned state is the input state. -/
noncomputable def samplePosterior (s : BayesianNormalEstimator)
    (gammaDraws normalDraws : ℕ → ℝ) (n_samples : ℤ) :
    Option (List ℝ × List ℝ) × BayesianNormalEstimator :=
  match npRandomArray gammaDraws n_samples with
  | none => (none, s)
  | some precision_samples =>
    match npRandomArray normalDraws n_samples with
    | none => (none, s)
    | some mu_samples =>
      (some (mu_samples, precision_samples.map (fun p => 1 / Real.sqrt p)), s)

/-- Model of `scipy.stats.t.pdf(x, nu, loc, scale)`: the location-scale
Student t density
`Γ((ν+1)/2) / (Γ(ν/2)·√(νπ)·scale) · (1 + ((x−loc)/scale)²/ν)^(−(ν+1)/2)`. -/
noncomputable def studentTPdf (x nu loc scale : ℝ) : ℝ :=
  Real.Gamma ((nu + 1) / 2) / (Real.Gamma (nu / 2) * Real.sqrt (nu * Real.pi) * scale) *
    (1 + ((x - loc) / scale) ^ 2 / nu) ^ (-((nu + 1) / 2))

/-- `posterior_predictive(self, x_new)`, lines 82-88 of the source:
`nu = 2 * posterior_alpha`, `scale = sqrt(posterior_beta * (1 + 1) / posterior_alpha)`,
returning the Student t density at `x_new`.  The method writes nothing to
`self`, so the returned state is the input state. -/
noncomputable def posteriorPredictive (s : BayesianNormalEstimator) (x_new : ℝ) :
    ℝ × BayesianNormalEstimator :=
  let nu := 2 * s.posterior_alpha
  let scale := Real.sqrt (s.posterior_beta * (1 + 1) / s.posterior_alpha)
  (studentTPdf x_new nu s.posterior_mu scale, s)

/-- The computed sample variance is never negative. -/
lemma sampleVar_nonneg (xs : List ℝ) : 0 ≤ sampleVar xs := by
  unfold sampleVar
  split
  · apply div_nonneg
    · apply List.sum_nonneg
      intro a ha
      simp only [List.mem_map] at ha
      obtain ⟨x, _, rfl⟩ := ha
      positivity
    · have h1 : (1 : ℝ) < xs.length := by exact_mod_cast (by assumption : 1 < xs.length)
      linarith
  · exact le_refl 0

/-- A positive computed sample variance forces at least two data points. -/
lemma length_gt_one_of_sampleVar_pos {xs : List ℝ} (h : 0 < sampleVar xs) :
    1 < xs.length := by
  by_contra hn
  rw [sampleVar, if_neg hn] at h
  exact lt_irrefl 0 h

/-- For a positive scale `σ`, `1 / sqrt(1 / σ²) = σ`. -/
lemma one_div_sqrt_one_div_sq {σ : ℝ} (h : 0 < σ) :
    1 / Real.sqrt (1 / σ ^ 2) = σ := by
  rw [one_div, one_div, Real.sqrt_inv, inv_inv, Real.sqrt_sq h.le]

/-- Claim C4: for every estimator state and every data list, after
`update_posterior` the posterior shape equals `prior_alpha + n / 2`, where `n`
is the sample size — unconditionally, even in the degenerate-variance cases. -/
theorem posterior_alpha_advances (s : BayesianNormalEstimator) (d : List ℝ) :
    (updatePosterior s d).posterior_alpha = s.prior_alpha + (d.length : ℝ) / 2 := rfl

/-- Claim C2: updating with a one-element sample `[v]` leaves the posterior
mean, mean scale and rate at their prior values, and sets the posterior shape
to `prior_alpha + 1/2` (for a valid prior, i.e. positive prior mean scale). -/
theorem update_singleton_freezes_mean (s : BayesianNormalEstimator) (v : ℝ)
    (h : 0 < s.prior_sigma) :
    (updatePosterior s [v]).posterior_mu = s.prior_mu ∧
    (updatePosterior s [v]).posterior_sigma = s.prior_sigma ∧
    (updatePosterior s [v]).posterior_beta = s.prior_beta ∧
    (updatePosterior s [v]).posterior_alpha = s.prior_alpha + 1 / 2 := by
  have hv : sampleVar [v] = 0 := by simp [sampleVar]
  refine ⟨?_, ?_, ?_, ?_⟩ <;>
    simp [updatePosterior, hv, one_div_sqrt_one_div_sq h, Real.sqrt_sq h.le]

/-- Witness for claim C2 at a concrete prior and data point. -/
theorem update_singleton_freezes_mean_witness :
    0 < (initEstimator 0 1 1 1).prior_sigma ∧
    ((updatePosterior (initEstimator 0 1 1 1) [5]).posterior_mu =
        (initEstimator 0 1 1 1).prior_mu ∧
      (updatePosterior (initEstimator 0 1 1 1) [5]).posterior_sigma =
        (initEstimator 0 1 1 1).prior_sigma ∧
      (updatePosterior (initEstimator 0 1 1 1) [5]).posterior_beta =
        (initEstimator 0 1 1 1).prior_beta ∧
      (updatePosterior (initEstimator 0 1 1 1) [5]).posterior_alpha =
        (initEstimator 0 1 1 1).prior_alpha + 1 / 2) :=
  ⟨by norm_num [initEstimator],
    update_singleton_freezes_mean (initEstimator 0 1 1 1) 5 (by norm_num [initEstimator])⟩

/-- Claim C3: updating with the empty sample leaves all four posterior fields
at their prior values (for a valid prior, i.e. positive prior mean scale);
in the embedding `updatePosterior` is total, so no error is raised. -/
theorem update_empty_is_noop (s : BayesianNormalEstimator)
    (h : 0 < s.prior_sigma) :
    (updatePosterior s []).posterior_mu = s.prior_mu ∧
    (updatePosterior s []).posterior_sigma = s.prior_sigma ∧
    (updatePosterior s []).posterior_alpha = s.prior_alpha ∧
    (updatePosterior s []).posterior_beta = s.prior_beta := by
  have hv : sampleVar [] = 0 := by simp [sampleVar]
  refine ⟨?_, ?_, ?_, ?_⟩ <;>
    simp [updatePosterior, hv, one_div_sqrt_one_div_sq h, Real.sqrt_sq h.le]

/-- Witness for claim C3 at a concrete prior. -/
theorem update_empty_is_noop_witness :
    0 < (initEstimator 2 3 1 1).prior_sigma ∧
    ((updatePosterior (initEstimator 2 3 1 1) []).posterior_mu =
        (initEstimator 2 3 1 1).prior_mu ∧
      (updatePosterior (initEstimator 2 3 1 1) []).posterior_sigma =
        (initEstimator 2 3 1 1).prior_sigma ∧
      (updatePosterior (initEstimator 2 3 1 1) []).posterior_alpha =
        (initEstimator 2 3 1 1).prior_alpha ∧
      (updatePosterior (initEstimator 2 3 1 1) []).posterior_beta =
        (initEstimator 2 3 1 1).prior_beta) :=
  ⟨by norm_num [initEstimator],
    update_empty_is_noop (initEstimator 2 3 1 1) (by norm_num [initEstimator])⟩

/-- Claim C8: `update_posterior` recomputes the posterior purely from the prior
fields and the new data, so a second update on the same instance yields exactly
the state a freshly constructed estimator with the same priors would reach. -/
theorem update_composes_from_prior (s : BayesianNormalEstimator) (d1 d2 : List ℝ) :
    updatePosterior (updatePosterior s d1) d2 =
      updatePosterior
        (initEstimator s.prior_mu s.prior_sigma s.prior_alpha s.prior_beta) d2 := by
  cases s
  rfl

/-- Claim C9: `update_posterior` never modifies the four prior hyperparameter
fields, and `sample_posterior` and `posterior_predictive` are read-only: they
return the estimator state unchanged (all prior fields, posterior fields and
recorded data included). -/
theorem priors_immutable_and_readonly (s : BayesianNormalEstimator) (d : List ℝ)
    (gd nd : ℕ → ℝ) (n : ℤ) (x : ℝ) :
    (updatePosterior s d).prior_mu = s.prior_mu ∧
    (updatePosterior s d).prior_sigma = s.prior_sigma ∧
    (updatePosterior s d).prior_alpha = s.prior_alpha ∧
    (updatePosterior s d).prior_beta = s.prior_beta ∧
    (samplePosterior s gd nd n).2 = s ∧
    (posteriorPredictive s x).2 = s := by
  refine ⟨rfl, rfl, rfl, rfl, ?_, rfl⟩
  rcases hg : npRandomArray gd n with _ | ps <;>
    rcases hm : npRandomArray nd n with _ | ms <;>
      simp [samplePosterior, hg, hm]

/-- Claim C7 counterexample: at `n_samples = -1` (which is `≤ 0`),
`sample_posterior` does not produce empty sequences: the first numpy sampling
call raises (`none`), because numpy rejects a negative `size`. -/
theorem sample_posterior_negative_size_raises :
    (samplePosterior (initEstimator 0 1 1 1) (fun _ => 0) (fun _ => 0) (-1)).1 =
      none := by
  simp [samplePosterior, npRandomArray]

/-- Claim C7 (amended): for every non-negative `n_samples`, `sample_posterior`
succeeds and returns two sequences `(mu_samples, sigma_samples)` of equal
length `n_samples` (empty when `n_samples = 0`); a negative `n_samples`
instead raises `ValueError` inside numpy. -/
theorem sample_posterior_lengths (s : BayesianNormalEstimator)
    (gd nd : ℕ → ℝ) (n : ℤ) (hn : 0 ≤ n) :
    ∃ mu sig : List ℝ, (samplePosterior s gd nd n).1 = some (mu, sig) ∧
      mu.length = n.toNat ∧ sig.length = n.toNat := by
  refine ⟨(List.range n.toNat).map nd,
    ((List.range n.toNat).map gd).map (fun p => 1 / Real.sqrt p), ?_, ?_, ?_⟩
  · simp [samplePosterior, npRandomArray, not_lt.mpr hn]
  · simp
  · simp

/-- Witness for the amended claim C7 at `n_samples = 2`. -/
theorem sample_posterior_lengths_witness :
    (0 : ℤ) ≤ 2 ∧
    ∃ mu sig : List ℝ,
      (samplePosterior (initEstimator 0 1 1 1) (fun _ => 0) (fun _ => 0) 2).1 =
          some (mu, sig) ∧
        mu.length = (2 : ℤ).toNat ∧ sig.length = (2 : ℤ).toNat :=
  ⟨by norm_num,
    sample_posterior_lengths (initEstimator 0 1 1 1) (fun _ => 0) (fun _ => 0) 2
      (by norm_num)⟩

/-- Claim C1: for a sample with more than one point and strictly positive
Bessel-corrected sample variance, `update_posterior` sets the posterior fields
exactly to the normal-gamma update formulas of the spec: with
`prior_precision = 1/prior_sigma²` and
`posterior_precision = prior_precision + n/sample_var`, the posterior mean
scale is `1/sqrt(posterior_precision)`, the posterior mean is
`(prior_precision·prior_mu + n·sample_mean/sample_var)/posterior_precision`,
and the posterior rate adds `ss/2` and the shrinkage term; the computed
sample variance is the Bessel-corrected one. -/
theorem update_formulas (s : BayesianNormalEstimator) (d : List ℝ)
    (hn : 1 < d.length) (hv : 0 < sampleVar d) :
    sampleVar d = sumSqDev d / ((d.length : ℝ) - 1) ∧
    (updatePosterior s d).posterior_sigma =
        1 / Real.sqrt (1 / s.prior_sigma ^ 2 + (d.length : ℝ) / sampleVar d) ∧
    (updatePosterior s d).posterior_mu =
        (1 / s.prior_sigma ^ 2 * s.prior_mu +
            (d.length : ℝ) * sampleMean d / sampleVar d) /
          (1 / s.prior_sigma ^ 2 + (d.length : ℝ) / sampleVar d) ∧
    (updatePosterior s d).posterior_beta =
        s.prior_beta + sumSqDev d / 2 +
          (1 / s.prior_sigma ^ 2 * (d.length : ℝ) * (sampleMean d - s.prior_mu) ^ 2) /
            (2 * (1 / s.prior_sigma ^ 2 + (d.length : ℝ) / sampleVar d)) := by
  refine ⟨by rw [sampleVar, if_pos hn], ?_, ?_, ?_⟩ <;>
    simp [updatePosterior, hv, hn]

/-- Witness for claim C1 at the concrete sample `[0, 2]` (variance 2). -/
theorem update_formulas_witness :
    (1 < ([0, 2] : List ℝ).length ∧ 0 < sampleVar [0, 2]) ∧
    (sampleVar ([0, 2] : List ℝ) = sumSqDev [0, 2] / ((([0, 2] : List ℝ).length : ℝ) - 1) ∧
    (updatePosterior (initEstimator 0 1 1 1) [0, 2]).posterior_sigma =
        1 / Real.sqrt (1 / (initEstimator 0 1 1 1).prior_sigma ^ 2 +
          ((([0, 2] : List ℝ).length : ℝ)) / sampleVar [0, 2]) ∧
    (updatePosterior (initEstimator 0 1 1 1) [0, 2]).posterior_mu =
        (1 / (initEstimator 0 1 1 1).prior_sigma ^ 2 * (initEstimator 0 1 1 1).prior_mu +
            ((([0, 2] : List ℝ).length : ℝ)) * sampleMean [0, 2] / sampleVar [0, 2]) /
          (1 / (initEstimator 0 1 1 1).prior_sigma ^ 2 +
            ((([0, 2] : List ℝ).length : ℝ)) / sampleVar [0, 2]) ∧
    (updatePosterior (initEstimator 0 1 1 1) [0, 2]).posterior_beta =
        (initEstimator 0 1 1 1).prior_beta + sumSqDev [0, 2] / 2 +
          (1 / (initEstimator 0 1 1 1).prior_sigma ^ 2 * ((([0, 2] : List ℝ).length : ℝ)) *
              (sampleMean [0, 2] - (initEstimator 0 1 1 1).prior_mu) ^ 2) /
            (2 * (1 / (initEstimator 0 1 1 1).prior_sigma ^ 2 +
              ((([0, 2] : List ℝ).length : ℝ)) / sampleVar [0, 2]))) :=
  ⟨⟨by norm_num, by norm_num [sampleVar, sumSqDev, sampleMean]⟩,
    update_formulas (initEstimator 0 1 1 1) [0, 2] (by norm_num)
      (by norm_num [sampleVar, sumSqDev, sampleMean])⟩

/-- Claim C10: for a positive prior mean scale, updating never widens the
posterior mean scale beyond the prior one, and it leaves it exactly equal to
the prior scale precisely in the degenerate cases (fewer than two data points,
or zero sample variance). -/
theorem posterior_sigma_contracts (s : BayesianNormalEstimator) (d : List ℝ)
    (h : 0 < s.prior_sigma) :
    (updatePosterior s d).posterior_sigma ≤ s.prior_sigma ∧
    ((updatePosterior s d).posterior_sigma = s.prior_sigma ↔
      (d.length ≤ 1 ∨ sampleVar d = 0)) := by
  by_cases hv : 0 < sampleVar d
  · have hn : 1 < d.length := length_gt_one_of_sampleVar_pos hv
    have hpp : 0 < 1 / s.prior_sigma ^ 2 := by positivity
    have hlen : (0 : ℝ) < d.length := by exact_mod_cast Nat.lt_of_lt_of_le Nat.one_pos hn.le
    have hnv : 0 < (d.length : ℝ) / sampleVar d := div_pos hlen hv
    have hps : (updatePosterior s d).posterior_sigma =
        1 / Real.sqrt (1 / s.prior_sigma ^ 2 + (d.length : ℝ) / sampleVar d) := by
      simp [updatePosterior, hv]
    have hstrict : (updatePosterior s d).posterior_sigma < s.prior_sigma := by
      rw [hps]
      have h1 : Real.sqrt (1 / s.prior_sigma ^ 2) <
          Real.sqrt (1 / s.prior_sigma ^ 2 + (d.length : ℝ) / sampleVar d) :=
        Real.sqrt_lt_sqrt hpp.le (by linarith)
      have h2 : 0 < Real.sqrt (1 / s.prior_sigma ^ 2) := Real.sqrt_pos.mpr hpp
      calc 1 / Real.sqrt (1 / s.prior_sigma ^ 2 + (d.length : ℝ) / sampleVar d) <
            1 / Real.sqrt (1 / s.prior_sigma ^ 2) := by
              exact one_div_lt_one_div_of_lt h2 h1
        _ = s.prior_sigma := one_div_sqrt_one_div_sq h
    refine ⟨hstrict.le, ?_, ?_⟩
    · intro he
      exact absurd he hstrict.ne
    · rintro (hl | hz)
      · exact absurd hl (by omega)
      · exact absurd hz hv.ne.symm
  · have hz : sampleVar d = 0 := le_antisymm (not_lt.mp hv) (sampleVar_nonneg d)
    have heq : (updatePosterior s d).posterior_sigma = s.prior_sigma := by
      simp [updatePosterior, hv, one_div_sqrt_one_div_sq h, Real.sqrt_sq h.le]
    exact ⟨heq.le, by simp [heq, hz]⟩

/-- Witness for claim C10 at a concrete prior and the empty sample. -/
theorem posterior_sigma_contracts_witness :
    0 < (initEstimator 0 1 1 1).prior_sigma ∧
    ((updatePosterior (initEstimator 0 1 1 1) []).posterior_sigma ≤
        (initEstimator 0 1 1 1).prior_sigma ∧
      ((updatePosterior (initEstimator 0 1 1 1) []).posterior_sigma =
          (initEstimator 0 1 1 1).prior_sigma ↔
        (([] : List ℝ).length ≤ 1 ∨ sampleVar ([] : List ℝ) = 0))) :=
  ⟨by norm_num [initEstimator],
    posterior_sigma_contracts (initEstimator 0 1 1 1) [] (by norm_num [initEstimator])⟩

/-- Claim C5: for positive posterior shape and rate, `posterior_predictive`
returns the location-scale Student t density with `ν = 2·posterior_alpha`,
location `posterior_mu` and scale `sqrt(posterior_beta·2/posterior_alpha)`,
and the returned density is non-negative (finiteness is inherent in the real
embedding). -/
theorem posterior_predictive_is_student_t (s : BayesianNormalEstimator) (x : ℝ)
    (ha : 0 < s.posterior_alpha) (hb : 0 < s.posterior_beta) :
    (posteriorPredictive s x).1 =
      studentTPdf x (2 * s.posterior_alpha) s.posterior_mu
        (Real.sqrt (s.posterior_beta * 2 / s.posterior_alpha)) ∧
    0 ≤ (posteriorPredictive s x).1 := by
  constructor
  · norm_num [posteriorPredictive]
  · have hsc : 0 < Real.sqrt (s.posterior_beta * (1 + 1) / s.posterior_alpha) :=
      Real.sqrt_pos.mpr (by positivity)
    simp only [posteriorPredictive, studentTPdf]
    apply le_of_lt
    apply mul_pos
    · apply div_pos
      · exact Real.Gamma_pos_of_pos (by positivity)
      · exact mul_pos
          (mul_pos (Real.Gamma_pos_of_pos (by positivity))
            (Real.sqrt_pos.mpr (by positivity))) hsc
    · apply Real.rpow_pos_of_pos
      positivity

/-- Witness for claim C5 at the freshly constructed default-prior estimator. -/
theorem posterior_predictive_is_student_t_witness :
    (0 < (initEstimator 0 1 1 1).posterior_alpha ∧
      0 < (initEstimator 0 1 1 1).posterior_beta) ∧
    ((posteriorPredictive (initEstimator 0 1 1 1) 0).1 =
        studentTPdf 0 (2 * (initEstimator 0 1 1 1).posterior_alpha)
          (initEstimator 0 1 1 1).posterior_mu
          (Real.sqrt ((initEstimator 0 1 1 1).posterior_beta * 2 /
            (initEstimator 0 1 1 1).posterior_alpha)) ∧
      0 ≤ (posteriorPredictive (initEstimator 0 1 1 1) 0).1) :=
  ⟨⟨by norm_num [initEstimator], by norm_num [initEstimator]⟩,
    posterior_predictive_is_student_t (initEstimator 0 1 1 1) 0
      (by norm_num [initEstimator]) (by norm_num [initEstimator])⟩

end HomeworkAI
